import Mathlib

/-!
Shallow embedding of the Beacon JSON-RPC dispatch layer
(`trin-beacon/src/jsonrpc.rs`) and proofs about its handlers.

The dispatcher's collaborators (content store, overlay engine, beacon
client) live outside the supplied slice; they are modelled as fields of a
`BeaconNetwork` record of pure functions, so each handler becomes a pure
Lean function from the record and the request arguments to
`Except String Json` — mirroring the Rust `Result<Value, String>`.
-/

namespace TrinBeacon

/-- Byte strings are lists of naturals; the code stores `u8` values, so
well-formed inputs satisfy `b < 256` for every element. -/
abbrev Bytes := List Nat

/-- Modelled from the spec: an ENR (signed peer record) is external to the
slice; only its identity matters here, so it is an abstract token. -/
abbrev Enr := Nat

/-- Modelled from the spec: the SSZ-wrapped ENR type returned by
`send_find_nodes`, converted into `Enr` via `Into::into`. -/
abbrev SszEnr := Nat

/-- Modelled from the spec: 32-byte peer identifier, abstract token. -/
abbrev NodeId := Nat

/-- JSON values, the model of `serde_json::Value`. Object fields are kept
as an association list; the dispatcher always builds objects in the (sorted)
order serde_json's map would hold them. -/
inductive Json where
  | null : Json
  | bool (b : Bool) : Json
  | num (n : Nat) : Json
  | str (s : String) : Json
  | arr (xs : List Json) : Json
  | obj (fields : List (String × Json)) : Json
deriving Repr

/-- Hex digit character for a value below 16, lowercase. -/
def hexDigit (n : Nat) : Char :=
  if n < 10 then Char.ofNat (48 + n) else Char.ofNat (87 + n)

/-- Two lowercase hex characters per byte, most significant first. -/
def bytesToHexChars : Bytes → List Char
  | [] => []
  | b :: rest => hexDigit (b % 256 / 16) :: hexDigit (b % 16) :: bytesToHexChars rest

/-- Modelled from the spec: `hex_encode` of ethportal-api (outside the
slice) — lowercase hex with a `0x` prefix. -/
def hex_encode (bytes : Bytes) : String :=
  String.mk ('0' :: 'x' :: bytesToHexChars bytes)

/-- Numeric value of a lowercase hex digit character, if it is one. -/
def hexDigitVal (c : Char) : Option Nat :=
  if 48 ≤ c.toNat ∧ c.toNat ≤ 57 then some (c.toNat - 48)
  else if 97 ≤ c.toNat ∧ c.toNat ≤ 102 then some (c.toNat - 87)
  else none

/-- Decode pairs of hex characters into bytes; fails on a stray digit or a
non-hex character. -/
def hexDecodeChars : List Char → Option Bytes
  | [] => some []
  | [_] => none
  | c1 :: c2 :: rest =>
    match hexDigitVal c1, hexDigitVal c2, hexDecodeChars rest with
    | some h, some l, some bs => some ((h * 16 + l) :: bs)
    | _, _, _ => none

/-- Modelled from the spec: parsing a JSON string into a `RawContentValue`
(the `serde_json::from_value` step of `recursive_find_content`) — a
`0x`-prefixed hex string decoded to bytes, with a serializer error string
on malformed input. -/
def raw_content_value_from_string (s : String) : Except String Bytes :=
  match s.data with
  | '0' :: 'x' :: rest =>
    match hexDecodeChars rest with
    | some bs => Except.ok bs
    | none => Except.error "invalid hex character"
  | _ => Except.error "missing 0x prefix"

/-- Escape a character for a JSON string literal. -/
def escapeChar (c : Char) : String :=
  if c = '"' then "\\\"" else if c = '\\' then "\\\\" else String.singleton c

/-- Escape a whole string for a JSON string literal. -/
def escapeString (s : String) : String :=
  String.join (s.data.map escapeChar)

mutual

/-- Compact serialization of a `Json` value, the model of
`serde_json::Value::to_string`. -/
def Json.toString : Json → String
  | Json.null => "null"
  | Json.bool b => cond b "true" "false"
  | Json.num n => Nat.repr n
  | Json.str s => "\"" ++ escapeString s ++ "\""
  | Json.arr xs => "[" ++ jsonArrBody xs ++ "]"
  | Json.obj fs => "\x7b" ++ jsonObjBody fs ++ "\x7d"

/-- Comma-separated serialization of array elements. -/
def jsonArrBody : List Json → String
  | [] => ""
  | [x] => Json.toString x
  | x :: xs => Json.toString x ++ "," ++ jsonArrBody xs

/-- Comma-separated serialization of object fields. -/
def jsonObjBody : List (String × Json) → String
  | [] => ""
  | [(k, v)] => "\"" ++ escapeString k ++ "\":" ++ Json.toString v
  | (k, v) :: fs =>
    "\"" ++ escapeString k ++ "\":" ++ Json.toString v ++ "," ++ jsonObjBody fs

end

/-- Display form of a `bool`, as Rust's `format!("{utp}")` produces it. -/
def boolDisplay (b : Bool) : String := cond b "true" "false"

/-- An error value of an external collaborator, keeping both of its Rust
renderings: `display` for `{err}` / `.to_string()` and `debug` for
`{err:?}`. -/
structure ExtErr where
  display : String
  debug : String
deriving Repr, DecidableEq

/-- A Beacon content key: the code uses its `content_id()` (32-byte hash),
its `Debug` rendering in error messages, and passes it to the store and
overlay. Both are carried as data. -/
structure BeaconContentKey where
  contentId : Bytes
  dbgRepr : String
deriving Repr, DecidableEq

/-- A Beacon content value; the code only calls `encode()` on it, so the
encoded bytes are carried directly. -/
structure BeaconContentValue where
  encoded : Bytes
deriving Repr, DecidableEq

/-- The `encode()` method of `ContentValue`. -/
def BeaconContentValue.encode (v : BeaconContentValue) : Bytes := v.encoded

/-- Modelled from the spec: `QueryTrace` of ethportal-api (outside the
slice) — a log of lookup progress seeded with an origin ENR and a target
content id, recording which nodes responded with content. -/
structure QueryTrace where
  origin : Enr
  targetId : Bytes
  respondedWith : List Enr
deriving Repr, DecidableEq

/-- Modelled from the spec: `QueryTrace::new(local_enr, content_id)` — a
fresh trace seeded with the given ENR and target id. -/
def QueryTrace.new (local_enr : Enr) (target_id : Bytes) : QueryTrace :=
  ⟨local_enr, target_id, []⟩

/-- Modelled from the spec: `trace.node_responded_with_content(enr)` —
records the ENR as having served the content. -/
def QueryTrace.node_responded_with_content (t : QueryTrace) (enr : Enr) : QueryTrace :=
  ⟨t.origin, t.targetId, t.respondedWith ++ [enr]⟩

/-- Modelled from the spec: JSON serialization of an abstract ENR token. -/
def enrToJson (e : Enr) : Json := Json.num e

/-- Modelled from the spec: serde serialization of a `QueryTrace`. -/
def QueryTrace.toJson (t : QueryTrace) : Json :=
  Json.obj [("origin", enrToJson t.origin),
            ("respondedWith", Json.arr (t.respondedWith.map enrToJson)),
            ("targetId", Json.str (hex_encode t.targetId))]

/-- Serialization of an optional trace; `None` becomes JSON `null`. -/
def optTraceJson : Option QueryTrace → Json
  | none => Json.null
  | some t => t.toJson

/-- Modelled from the spec: the `OverlayRequestError` variants the handler
distinguishes — `ContentNotFound` carries `message`, `utp` and an optional
trace; every other variant is carried by its `Display` rendering. -/
inductive OverlayRequestError where
  | contentNotFound (message : String) (utp : Bool) (trace : Option QueryTrace) :
      OverlayRequestError
  | other (display : String) : OverlayRequestError
deriving Repr, DecidableEq

/-- Display rendering of an overlay error (`err.to_string()`); the
`contentNotFound` branch is never reached by the dispatcher, which
replaces it with a structured JSON string. -/
def OverlayRequestError.to_string : OverlayRequestError → String
  | OverlayRequestError.contentNotFound message _ _ => message
  | OverlayRequestError.other display => display

/-- The `Content` sum of the Portal wire protocol. -/
inductive Content where
  | connectionId (id : Nat) : Content
  | content (bytes : Bytes) : Content
  | enrs (enrs : List Enr) : Content
deriving Repr, DecidableEq

/-- Modelled from the spec: a consensus-layer header, of which only the
`state_root` is used. -/
structure Header where
  state_root : Bytes
deriving Repr, DecidableEq

/-- Modelled from the spec: the beacon consensus client facade, exposing
`get_header` and `get_finalized_header`. -/
structure BeaconClient where
  getHeader : Except ExtErr Header
  getFinalizedHeader : Except ExtErr Header

/-- The `Nodes` response of `send_find_nodes`: a list of SSZ-wrapped ENRs. -/
structure Nodes where
  enrs : List SszEnr
deriving Repr, DecidableEq

/-- The `Accept` response of an offer: a bitlist of accepted content keys. -/
structure Accept where
  content_keys : List Bool
deriving Repr, DecidableEq

/-- The `Pong` response of `send_ping`. -/
structure Pong where
  enr_seq : Nat
  custom_payload : Bytes
deriving Repr, DecidableEq

/-- Modelled from the spec: `Distance::from(custom_payload)` — a 256-bit
unsigned integer read from little-endian bytes. -/
def u256_from_le (bytes : Bytes) : Nat :=
  bytes.foldr (fun b acc => acc * 256 + b % 256) 0

/-- The dispatcher's view of its collaborators: the shared content store
(`overlay.store`), the overlay engine, and the optional beacon client.
Each field is the pure model of one method the dispatcher calls. -/
structure BeaconNetwork where
  storeGet : BeaconContentKey → Except ExtErr (Option Bytes)
  storePut : BeaconContentKey → Bytes → Except ExtErr Unit
  storePaginate : Nat → Nat → Except ExtErr Json
  localEnr : Enr
  lookupContent :
    BeaconContentKey → Bool →
      Except ExtErr (Except OverlayRequestError (Bytes × Bool × Option QueryTrace))
  dataRadius : Nat
  addEnr : Enr → Except ExtErr Unit
  deleteEnr : NodeId → Bool
  getEnr : NodeId → Except ExtErr Enr
  lookupEnr : NodeId → Except ExtErr Enr
  sendFindContent : Enr → BeaconContentKey → Except ExtErr (Content × Bool)
  sendFindNodes : Enr → List Nat → Except ExtErr Nodes
  sszEnrInto : SszEnr → Enr
  propagateGossip : List (BeaconContentKey × Bytes) → Nat
  propagateGossipTrace : BeaconContentKey → Bytes → Json
  sendOffer : Enr → BeaconContentKey → Bytes → Except ExtErr Accept
  sendWireOffer : Enr → List BeaconContentKey → Except ExtErr Accept
  sendPing : Enr → Except ExtErr Pong
  lookupNode : NodeId → List Enr
  routingTableInfo : Except ExtErr Json
  beaconClient : Option BeaconClient

/-- The endpoint tags of `BeaconEndpoint`. -/
inductive BeaconEndpoint where
  | localContent (content_key : BeaconContentKey) : BeaconEndpoint
  | paginateLocalContentKeys (offset : Nat) (limit : Nat) : BeaconEndpoint
  | store (content_key : BeaconContentKey) (content_value : BeaconContentValue) :
      BeaconEndpoint
  | recursiveFindContent (content_key : BeaconContentKey) : BeaconEndpoint
  | traceRecursiveFindContent (content_key : BeaconContentKey) : BeaconEndpoint
  | addEnr (enr : Enr) : BeaconEndpoint
  | dataRadius : BeaconEndpoint
  | deleteEnr (node_id : NodeId) : BeaconEndpoint
  | findContent (enr : Enr) (content_key : BeaconContentKey) : BeaconEndpoint
  | findNodes (enr : Enr) (distances : List Nat) : BeaconEndpoint
  | getEnr (node_id : NodeId) : BeaconEndpoint
  | gossip (content_key : BeaconContentKey) (content_value : BeaconContentValue) :
      BeaconEndpoint
  | traceGossip (content_key : BeaconContentKey) (content_value : BeaconContentValue) :
      BeaconEndpoint
  | lookupEnr (node_id : NodeId) : BeaconEndpoint
  | offer (enr : Enr) (content_key : BeaconContentKey)
      (content_value : BeaconContentValue) : BeaconEndpoint
  | wireOffer (enr : Enr) (content_keys : List BeaconContentKey) : BeaconEndpoint
  | ping (enr : Enr) : BeaconEndpoint
  | routingTableInfo : BeaconEndpoint
  | recursiveFindNodes (node_id : NodeId) : BeaconEndpoint
  | optimisticStateRoot : BeaconEndpoint
  | finalizedStateRoot : BeaconEndpoint

/-- A JSON-RPC request: an endpoint tag plus a one-shot reply channel. The
channel itself is modelled by the list of messages `complete_request`
sends on it. -/
structure BeaconJsonRpcRequest where
  endpoint : BeaconEndpoint

/-- Local-store probe plus overlay fallback of `recursive_find_content`
(jsonrpc.rs lines 123–173): the triple `(content_bytes, utp_transfer,
trace)` the marshalling step receives, or the early-returned error. A
store error is downgraded to a miss (logged in the source, not surfaced). -/
def lookup_step (network : BeaconNetwork) (content_key : BeaconContentKey)
    (is_trace : Bool) : Except String (Bytes × Bool × Option QueryTrace) :=
  let local_content : Option Bytes :=
    match network.storeGet content_key with
    | Except.ok (some data) => some data
    | Except.ok none => none
    | Except.error _ => none
  match local_content with
  | some val =>
    let local_enr := network.localEnr
    let trace :=
      (QueryTrace.new network.localEnr content_key.contentId).node_responded_with_content
        local_enr
    Except.ok (val, false, if is_trace then some trace else none)
  | none =>
    match network.lookupContent content_key is_trace with
    | Except.error err => Except.error err.display
    | Except.ok (Except.ok (content_bytes, utp_transfer, trace)) =>
      Except.ok (content_bytes, utp_transfer, trace)
    | Except.ok (Except.error err) =>
      match err with
      | OverlayRequestError.contentNotFound message utp trace =>
        Except.error
          (Json.toString
            (Json.obj
              [("message", Json.str (message ++ ": utp: " ++ boolDisplay utp)),
               ("trace", optTraceJson trace)]))
      | OverlayRequestError.other _ => Except.error err.to_string

/-- Marshalling step of `recursive_find_content` (jsonrpc.rs lines
175–194): hex-encode the bytes, re-parse them as a `RawContentValue`, and
wrap them as `ContentInfo::Content` or `TraceContentInfo`. -/
def content_result (content_bytes : Bytes) (utp_transfer : Bool)
    (trace : Option QueryTrace) (is_trace : Bool) : Except String Json :=
  let content_response_string := hex_encode content_bytes
  if !is_trace then
    match raw_content_value_from_string content_response_string with
    | Except.error e => Except.error e
    | Except.ok content =>
      Except.ok
        (Json.obj [("content", Json.str (hex_encode content)),
                   ("utpTransfer", Json.bool utp_transfer)])
  else
    match trace with
    | some trace =>
      match raw_content_value_from_string content_response_string with
      | Except.error e => Except.error e
      | Except.ok content =>
        Except.ok
          (Json.obj [("content", Json.str (hex_encode content)),
                     ("utpTransfer", Json.bool utp_transfer),
                     ("trace", trace.toJson)])
    | none => Except.error "Content query trace requested but none provided."

/-- The `recursive_find_content` handler. -/
def recursive_find_content (network : BeaconNetwork)
    (content_key : BeaconContentKey) (is_trace : Bool) : Except String Json :=
  match lookup_step network content_key is_trace with
  | Except.error e => Except.error e
  | Except.ok (content_bytes, utp_transfer, trace) =>
    content_result content_bytes utp_transfer trace is_trace

/-- The `local_content` handler. -/
def local_content (network : BeaconNetwork) (content_key : BeaconContentKey) :
    Except String Json :=
  match network.storeGet content_key with
  | Except.ok (some val) => Except.ok (Json.str (hex_encode val))
  | Except.ok none => Except.error "Content not found in local storage"
  | Except.error err =>
    Except.error
      ("Database error while looking for content key in local storage: " ++
        content_key.dbgRepr ++ ", with error: " ++ err.display)

/-- The `paginate_local_content_keys` handler. -/
def paginate_local_content_keys (network : BeaconNetwork) (offset : Nat)
    (limit : Nat) : Except String Json :=
  match network.storePaginate offset limit with
  | Except.ok val => Except.ok val
  | Except.error err =>
    Except.error
      ("Database error while paginating local content keys with offset: " ++
        Nat.repr offset ++ ", limit: " ++ Nat.repr limit ++
        ". Error message: " ++ err.display)

/-- The `store` handler: note that a put failure is still an `ok` result,
carrying the message as a string payload. -/
def store (network : BeaconNetwork) (content_key : BeaconContentKey)
    (content_value : BeaconContentValue) : Except String Json :=
  let data := content_value.encode
  match network.storePut content_key data with
  | Except.ok _ => Except.ok (Json.bool true)
  | Except.error msg => Except.ok (Json.str msg.display)

/-- The `add_enr` handler. -/
def add_enr (network : BeaconNetwork) (enr : Enr) : Except String Json :=
  match network.addEnr enr with
  | Except.ok _ => Except.ok (Json.bool true)
  | Except.error err => Except.error ("AddEnr failed: " ++ err.debug)

/-- The `get_enr` handler. -/
def get_enr (network : BeaconNetwork) (node_id : NodeId) : Except String Json :=
  match network.getEnr node_id with
  | Except.ok enr => Except.ok (enrToJson enr)
  | Except.error err => Except.error ("GetEnr failed: " ++ err.debug)

/-- The `delete_enr` handler; never errors. -/
def delete_enr (network : BeaconNetwork) (node_id : NodeId) : Except String Json :=
  Except.ok (Json.bool (network.deleteEnr node_id))

/-- The `lookup_enr` handler. -/
def lookup_enr (network : BeaconNetwork) (node_id : NodeId) : Except String Json :=
  match network.lookupEnr node_id with
  | Except.ok enr => Except.ok (enrToJson enr)
  | Except.error err => Except.error ("LookupEnr failed: " ++ err.debug)

/-- The `find_content` handler. -/
def find_content (network : BeaconNetwork) (enr : Enr)
    (content_key : BeaconContentKey) : Except String Json :=
  match network.sendFindContent enr content_key with
  | Except.ok (Content.connectionId id, _) =>
    Except.error
      ("FindContent request returned a connection id (" ++ Nat.repr id ++
        ") instead of conducting utp transfer.")
  | Except.ok (Content.content content, utp_transfer) =>
    Except.ok
      (Json.obj [("content", Json.str (hex_encode content)),
                 ("utpTransfer", Json.bool utp_transfer)])
  | Except.ok (Content.enrs enrs, _) =>
    Except.ok (Json.obj [("enrs", Json.arr (enrs.map enrToJson))])
  | Except.error msg => Except.error ("FindContent request timeout: " ++ msg.debug)

/-- The `find_nodes` handler: each returned SSZ ENR is converted with
`Into::into` and the list collected into `FindNodesInfo`. -/
def find_nodes (network : BeaconNetwork) (enr : Enr) (distances : List Nat) :
    Except String Json :=
  match network.sendFindNodes enr distances with
  | Except.ok nodes =>
    Except.ok (Json.arr ((nodes.enrs.map network.sszEnrInto).map enrToJson))
  | Except.error msg => Except.error ("FindNodes request timeout: " ++ msg.debug)

/-- The `gossip` handler, shared by `Gossip` and `TraceGossip`. -/
def gossip (network : BeaconNetwork) (content_key : BeaconContentKey)
    (content_value : BeaconContentValue) (is_trace : Bool) : Except String Json :=
  let data := content_value.encode
  match is_trace with
  | true => Except.ok (network.propagateGossipTrace content_key data)
  | false => Except.ok (Json.num (network.propagateGossip [(content_key, data)]))

/-- Modelled from the spec: serde serialization of `AcceptInfo`. -/
def acceptInfoJson (accept : Accept) : Json :=
  Json.obj [("contentKeys", Json.arr (accept.content_keys.map Json.bool))]

/-- The `offer` handler. -/
def offer (network : BeaconNetwork) (enr : Enr) (content_key : BeaconContentKey)
    (content_value : BeaconContentValue) : Except String Json :=
  match network.sendOffer enr content_key content_value.encode with
  | Except.ok accept => Except.ok (acceptInfoJson accept)
  | Except.error msg => Except.error ("Offer request timeout: " ++ msg.debug)

/-- The `wire_offer` handler. -/
def wire_offer (network : BeaconNetwork) (enr : Enr)
    (content_keys : List BeaconContentKey) : Except String Json :=
  match network.sendWireOffer enr content_keys with
  | Except.ok accept => Except.ok (acceptInfoJson accept)
  | Except.error msg => Except.error ("WireOffer request timeout: " ++ msg.debug)

/-- The `ping` handler. -/
def ping (network : BeaconNetwork) (enr : Enr) : Except String Json :=
  match network.sendPing enr with
  | Except.ok pong =>
    Except.ok
      (Json.obj [("dataRadius", Json.num (u256_from_le pong.custom_payload)),
                 ("enrSeq", Json.num pong.enr_seq)])
  | Except.error msg => Except.error ("Ping request timeout: " ++ msg.debug)

/-- The `recursive_find_nodes` handler; always succeeds. -/
def recursive_find_nodes (network : BeaconNetwork) (node_id : NodeId) :
    Except String Json :=
  Except.ok (Json.arr ((network.lookupNode node_id).map enrToJson))

/-- The `response` value computed by `complete_request` for a given
endpoint (jsonrpc.rs lines 43–113): the endpoint dispatch match. -/
def complete_request_response (network : BeaconNetwork)
    (endpoint : BeaconEndpoint) : Except String Json :=
  match endpoint with
  | BeaconEndpoint.localContent content_key => local_content network content_key
  | BeaconEndpoint.paginateLocalContentKeys offset limit =>
    paginate_local_content_keys network offset limit
  | BeaconEndpoint.store content_key content_value =>
    store network content_key content_value
  | BeaconEndpoint.recursiveFindContent content_key =>
    recursive_find_content network content_key false
  | BeaconEndpoint.traceRecursiveFindContent content_key =>
    recursive_find_content network content_key true
  | BeaconEndpoint.addEnr enr => add_enr network enr
  | BeaconEndpoint.dataRadius => Except.ok (Json.num network.dataRadius)
  | BeaconEndpoint.deleteEnr node_id => delete_enr network node_id
  | BeaconEndpoint.findContent enr content_key => find_content network enr content_key
  | BeaconEndpoint.findNodes enr distances => find_nodes network enr distances
  | BeaconEndpoint.getEnr node_id => get_enr network node_id
  | BeaconEndpoint.gossip content_key content_value =>
    gossip network content_key content_value false
  | BeaconEndpoint.traceGossip content_key content_value =>
    gossip network content_key content_value true
  | BeaconEndpoint.lookupEnr node_id => lookup_enr network node_id
  | BeaconEndpoint.offer enr content_key content_value =>
    offer network enr content_key content_value
  | BeaconEndpoint.wireOffer enr content_keys => wire_offer network enr content_keys
  | BeaconEndpoint.ping enr => ping network enr
  | BeaconEndpoint.routingTableInfo =>
    match network.routingTableInfo with
    | Except.ok val => Except.ok val
    | Except.error err => Except.error err.display
  | BeaconEndpoint.recursiveFindNodes node_id => recursive_find_nodes network node_id
  | BeaconEndpoint.optimisticStateRoot =>
    match network.beaconClient with
    | some client =>
      match client.getHeader with
      | Except.ok header => Except.ok (Json.str (hex_encode header.state_root))
      | Except.error err => Except.error err.display
    | none => Except.error "Beacon client not initialized"
  | BeaconEndpoint.finalizedStateRoot =>
    match network.beaconClient with
    | some client =>
      match client.getFinalizedHeader with
      | Except.ok header => Except.ok (Json.str (hex_encode header.state_root))
      | Except.error err => Except.error err.display
    | none => Except.error "Beacon client not initialized"

/-- The `complete_request` task body: computes the response and sends it on
the request's one-shot reply channel, modelled as the list of messages the
channel receives. -/
def complete_request (network : BeaconNetwork) (request : BeaconJsonRpcRequest) :
    List (Except String Json) :=
  let response : Except String Json := complete_request_response network request.endpoint
  [response]

/-- Replace only the overlay `lookup_content` capability of a network,
keeping every other collaborator; used to state that a handler does not
invoke the overlay lookup. -/
def setLookupContent (network : BeaconNetwork)
    (f : BeaconContentKey → Bool →
      Except ExtErr (Except OverlayRequestError (Bytes × Bool × Option QueryTrace))) :
    BeaconNetwork :=
  { network with lookupContent := f }

/-- A key the concrete test store holds. -/
def testKey : BeaconContentKey := ⟨[0, 1], "BeaconContentKey([0, 1])"⟩

/-- A key whose overlay lookup reports `ContentNotFound`. -/
def cnfKey : BeaconContentKey := ⟨[2], "BeaconContentKey([2])"⟩

/-- A key whose overlay lookup succeeds with a trace. -/
def okTraceKey : BeaconContentKey := ⟨[3], "BeaconContentKey([3])"⟩

/-- A key whose overlay lookup succeeds without a trace. -/
def okNoTraceKey : BeaconContentKey := ⟨[4], "BeaconContentKey([4])"⟩

/-- A key whose overlay lookup fails with a non-ContentNotFound error. -/
def otherErrKey : BeaconContentKey := ⟨[5], "BeaconContentKey([5])"⟩

/-- A key on which the store itself errors. -/
def errKey : BeaconContentKey := ⟨[6], "BeaconContentKey([6])"⟩

/-- A concrete content value. -/
def testVal : BeaconContentValue := ⟨[190, 239]⟩

/-- A concrete query trace carried by overlay responses. -/
def testTrace : QueryTrace := ⟨9, [2], [5]⟩

/-- A concrete beacon client whose optimistic fetch succeeds and whose
finalized fetch fails. -/
def testClient : BeaconClient := ⟨Except.ok ⟨[7]⟩, Except.error ⟨"rpc down", "RpcDown"⟩⟩

/-- A concrete collaborator record exercising every handler branch; used by
the witness theorems. -/
def baseNet : BeaconNetwork where
  storeGet k :=
    if k = testKey then Except.ok (some [222, 173])
    else if k = errKey then Except.error ⟨"db corrupt", "DbCorrupt"⟩
    else Except.ok none
  storePut k _ :=
    if k = errKey then Except.error ⟨"disk full", "DiskFull"⟩ else Except.ok ()
  storePaginate _ _ := Except.ok (Json.arr [])
  localEnr := 1
  lookupContent k _ :=
    if k = cnfKey then
      Except.ok (Except.error
        (OverlayRequestError.contentNotFound "no providers" false (some testTrace)))
    else if k = okTraceKey then Except.ok (Except.ok ([202, 254], true, some testTrace))
    else if k = okNoTraceKey then Except.ok (Except.ok ([202, 254], true, none))
    else if k = otherErrKey then
      Except.ok (Except.error (OverlayRequestError.other "request timed out"))
    else Except.error ⟨"lookup failed", "LookupFailed"⟩
  dataRadius := 0
  addEnr _ := Except.ok ()
  deleteEnr _ := true
  getEnr _ := Except.ok 2
  lookupEnr _ := Except.ok 2
  sendFindContent _ k :=
    if k = testKey then Except.ok (Content.content [171], true)
    else if k = cnfKey then Except.ok (Content.connectionId 42, false)
    else if k = okTraceKey then Except.ok (Content.enrs [3, 4], false)
    else Except.error ⟨"timeout", "Timeout"⟩
  sendFindNodes e _ :=
    if e = 1 then Except.ok ⟨[10, 11]⟩ else Except.error ⟨"timeout", "Timeout"⟩
  sszEnrInto s := s + 100
  propagateGossip ps := ps.length + 7
  propagateGossipTrace _ _ := Json.str "trace-record"
  sendOffer _ _ _ := Except.ok ⟨[true]⟩
  sendWireOffer _ _ := Except.ok ⟨[true]⟩
  sendPing _ := Except.ok ⟨5, [1, 0]⟩
  lookupNode _ := [2]
  routingTableInfo := Except.ok (Json.obj [])
  beaconClient := none

/-- The same collaborators with the concrete beacon client installed. -/
def clientNet : BeaconNetwork := { baseNet with beaconClient := some testClient }

theorem hexDigitVal_hexDigit (n : Nat) (h : n < 16) :
    hexDigitVal (hexDigit n) = some n := by
  interval_cases n <;> rfl

theorem hexDecodeChars_encode (bs : Bytes) :
    hexDecodeChars (bytesToHexChars bs) = some (bs.map (fun b => b % 256)) := by
  induction bs with
  | nil => rfl
  | cons b rest ih =>
    have h1 : b % 256 / 16 < 16 := by omega
    have h2 : b % 16 < 16 := by omega
    have h3 : b % 256 / 16 * 16 + b % 16 = b % 256 := by omega
    simp only [bytesToHexChars, hexDecodeChars, hexDigitVal_hexDigit _ h1,
      hexDigitVal_hexDigit _ h2, ih, List.map, h3]

theorem raw_decode_hex_encode (bs : Bytes) :
    raw_content_value_from_string (hex_encode bs) =
      Except.ok (bs.map (fun b => b % 256)) := by
  simp only [raw_content_value_from_string, hex_encode, hexDecodeChars_encode]

theorem map_mod_of_lt (bs : Bytes) (h : ∀ b ∈ bs, b < 256) :
    bs.map (fun b => b % 256) = bs := by
  induction bs with
  | nil => rfl
  | cons b rest ih =>
    simp only [List.mem_cons] at h
    simp only [List.map, Nat.mod_eq_of_lt (h b (Or.inl rfl)),
      ih (fun x hx => h x (Or.inr hx))]

theorem content_result_untraced (bs : Bytes) (utp : Bool) (trace : Option QueryTrace) :
    content_result bs utp trace false =
      Except.ok (Json.obj [("content", Json.str (hex_encode (bs.map (fun b => b % 256)))),
                          ("utpTransfer", Json.bool utp)]) := by
  simp only [content_result, Bool.not_false, if_pos, raw_decode_hex_encode]

theorem content_result_traced_some (bs : Bytes) (utp : Bool) (t : QueryTrace) :
    content_result bs utp (some t) true =
      Except.ok (Json.obj [("content", Json.str (hex_encode (bs.map (fun b => b % 256)))),
                          ("utpTransfer", Json.bool utp), ("trace", t.toJson)]) := by
  simp only [content_result, Bool.not_true, Bool.false_eq_true, if_false,
    raw_decode_hex_encode]

theorem content_result_traced_none (bs : Bytes) (utp : Bool) :
    content_result bs utp none true =
      Except.error "Content query trace requested but none provided." := rfl

theorem lookup_step_local_hit (network : BeaconNetwork) (k : BeaconContentKey)
    (bytes : Bytes) (is_trace : Bool)
    (hget : network.storeGet k = Except.ok (some bytes)) :
    lookup_step network k is_trace =
      Except.ok (bytes, false,
        if is_trace then
          some ((QueryTrace.new network.localEnr k.contentId).node_responded_with_content
            network.localEnr)
        else none) := by
  simp only [lookup_step, hget]

theorem lookup_step_miss (network : BeaconNetwork) (k : BeaconContentKey)
    (is_trace : Bool) (hget : network.storeGet k = Except.ok none) :
    lookup_step network k is_trace =
      match network.lookupContent k is_trace with
      | Except.error err => Except.error err.display
      | Except.ok (Except.ok triple) => Except.ok triple
      | Except.ok (Except.error err) =>
        match err with
        | OverlayRequestError.contentNotFound message utp trace =>
          Except.error
            (Json.toString
              (Json.obj
                [("message", Json.str (message ++ ": utp: " ++ boolDisplay utp)),
                 ("trace", optTraceJson trace)]))
        | OverlayRequestError.other _ => Except.error err.to_string := by
  simp only [lookup_step, hget]
  rcases network.lookupContent k is_trace with e | (⟨b, u, t⟩ | e) <;> rfl

/-- C1: a successful `store.put` of the encoded value yields
`Ok(Json::Bool(true))`; a put failure yields `Ok(Json::String(msg))` — the
outer result is still success — and the handler never returns `Err`. -/
theorem store_put_result (network : BeaconNetwork) (k : BeaconContentKey)
    (v : BeaconContentValue) :
    (∀ u, network.storePut k v.encode = Except.ok u →
        store network k v = Except.ok (Json.bool true)) ∧
    (∀ msg, network.storePut k v.encode = Except.error msg →
        store network k v = Except.ok (Json.str msg.display)) ∧
    ∃ j, store network k v = Except.ok j := by
  refine ⟨fun u hu => ?_, fun msg hmsg => ?_, ?_⟩
  · simp only [store, hu]
  · simp only [store, hmsg]
  · cases h : network.storePut k v.encode with
    | ok u => exact ⟨Json.bool true, by simp only [store, h]⟩
    | error msg => exact ⟨Json.str msg.display, by simp only [store, h]⟩

theorem store_put_result_w :
    store baseNet testKey testVal = Except.ok (Json.bool true) ∧
    store baseNet errKey testVal = Except.ok (Json.str "disk full") :=
  ⟨(store_put_result baseNet testKey testVal).1 () rfl,
   (store_put_result baseNet errKey testVal).2.1 ⟨"disk full", "DiskFull"⟩ rfl⟩

/-- C2: on a local store hit, both the traced and the untraced
`recursive_find_content` return the stored bytes with `utp_transfer`
false; the traced result carries a fresh `QueryTrace` seeded with the
local ENR and marked as served by the local ENR; and the result does not
depend on the overlay `lookup_content` capability at all. -/
theorem recursive_find_content_local_hit (network : BeaconNetwork)
    (k : BeaconContentKey) (bytes : Bytes)
    (hget : network.storeGet k = Except.ok (some bytes))
    (hbytes : ∀ b ∈ bytes, b < 256) :
    recursive_find_content network k false =
      Except.ok (Json.obj [("content", Json.str (hex_encode bytes)),
                          ("utpTransfer", Json.bool false)]) ∧
    recursive_find_content network k true =
      Except.ok (Json.obj [("content", Json.str (hex_encode bytes)),
                          ("utpTransfer", Json.bool false),
                          ("trace",
                            ((QueryTrace.new network.localEnr
                              k.contentId).node_responded_with_content
                                network.localEnr).toJson)]) ∧
    ∀ f b, recursive_find_content (setLookupContent network f) k b =
      recursive_find_content network k b := by
  refine ⟨?_, ?_, ?_⟩
  · rw [recursive_find_content, lookup_step_local_hit network k bytes false hget]
    simp only [if_neg Bool.false_ne_true, content_result_untraced,
      map_mod_of_lt bytes hbytes]
  · rw [recursive_find_content, lookup_step_local_hit network k bytes true hget]
    simp only [if_true, content_result_traced_some, map_mod_of_lt bytes hbytes]
  · intro f b
    rw [recursive_find_content, recursive_find_content,
      lookup_step_local_hit network k bytes b hget,
      lookup_step_local_hit (setLookupContent network f) k bytes b hget]
    rfl

theorem recursive_find_content_local_hit_w :
    recursive_find_content baseNet testKey false =
      Except.ok (Json.obj [("content", Json.str (hex_encode [222, 173])),
                          ("utpTransfer", Json.bool false)]) ∧
    recursive_find_content baseNet testKey true =
      Except.ok (Json.obj [("content", Json.str (hex_encode [222, 173])),
                          ("utpTransfer", Json.bool false),
                          ("trace",
                            ((QueryTrace.new baseNet.localEnr
                              testKey.contentId).node_responded_with_content
                                baseNet.localEnr).toJson)]) :=
  ⟨(recursive_find_content_local_hit baseNet testKey [222, 173] rfl (by decide)).1,
   (recursive_find_content_local_hit baseNet testKey [222, 173] rfl (by decide)).2.1⟩

/-- C3: untraced success is always a `ContentInfo::Content` object with no
trace field; traced success with a trace present is the
`TraceContentInfo` object; traced content with no trace produced is the
literal error. -/
theorem recursive_find_content_shape (network : BeaconNetwork)
    (k : BeaconContentKey) :
    (∀ j, recursive_find_content network k false = Except.ok j →
        ∃ s u, j = Json.obj [("content", Json.str s), ("utpTransfer", Json.bool u)]) ∧
    (∀ bytes utp t, network.storeGet k = Except.ok none →
        network.lookupContent k true = Except.ok (Except.ok (bytes, utp, some t)) →
        (∀ b ∈ bytes, b < 256) →
        recursive_find_content network k true =
          Except.ok (Json.obj [("content", Json.str (hex_encode bytes)),
                              ("utpTransfer", Json.bool utp),
                              ("trace", t.toJson)])) ∧
    (∀ bytes utp, network.storeGet k = Except.ok none →
        network.lookupContent k true = Except.ok (Except.ok (bytes, utp, none)) →
        recursive_find_content network k true =
          Except.error "Content query trace requested but none provided.") := by
  refine ⟨fun j hj => ?_, fun bytes utp t hget hlook hb => ?_,
    fun bytes utp hget hlook => ?_⟩
  · rw [recursive_find_content] at hj
    cases hstep : lookup_step network k false with
    | error e => rw [hstep] at hj; cases hj
    | ok triple =>
      obtain ⟨bs, utp, tr⟩ := triple
      rw [hstep] at hj
      simp only [content_result_untraced] at hj
      exact ⟨_, _, (Except.ok.inj hj).symm⟩
  · rw [recursive_find_content]
    simp only [lookup_step_miss network k true hget, hlook,
      content_result_traced_some, map_mod_of_lt bytes hb]
  · rw [recursive_find_content]
    simp only [lookup_step_miss network k true hget, hlook,
      content_result_traced_none]

theorem recursive_find_content_shape_w :
    (∃ s u, Json.obj [("content", Json.str (hex_encode [222, 173])),
                      ("utpTransfer", Json.bool false)] =
      Json.obj [("content", Json.str s), ("utpTransfer", Json.bool u)]) ∧
    recursive_find_content baseNet okTraceKey true =
      Except.ok (Json.obj [("content", Json.str (hex_encode [202, 254])),
                          ("utpTransfer", Json.bool true),
                          ("trace", testTrace.toJson)]) ∧
    recursive_find_content baseNet okNoTraceKey true =
      Except.error "Content query trace requested but none provided." :=
  ⟨(recursive_find_content_shape baseNet testKey).1 _ rfl,
   (recursive_find_content_shape baseNet okTraceKey).2.1 [202, 254] true testTrace
      rfl rfl (by decide),
   (recursive_find_content_shape baseNet okNoTraceKey).2.2 [202, 254] true rfl rfl⟩

/-- C4: a `ContentNotFound { message, utp, trace }` inner overlay error is
returned as the serialized JSON object with the formatted message and the
carried trace; any other inner overlay error is returned as its plain
string form. -/
theorem recursive_find_content_not_found (network : BeaconNetwork)
    (k : BeaconContentKey) (is_trace : Bool)
    (hmiss : network.storeGet k = Except.ok none) :
    (∀ m u tr, network.lookupContent k is_trace =
        Except.ok (Except.error (OverlayRequestError.contentNotFound m u tr)) →
        recursive_find_content network k is_trace =
          Except.error
            (Json.toString
              (Json.obj [("message", Json.str (m ++ ": utp: " ++ boolDisplay u)),
                         ("trace", optTraceJson tr)]))) ∧
    (∀ s, network.lookupContent k is_trace =
        Except.ok (Except.error (OverlayRequestError.other s)) →
        recursive_find_content network k is_trace = Except.error s) := by
  refine ⟨fun m u tr hlook => ?_, fun s hlook => ?_⟩
  · rw [recursive_find_content]
    simp only [lookup_step_miss network k is_trace hmiss, hlook]
  · rw [recursive_find_content]
    simp only [lookup_step_miss network k is_trace hmiss, hlook,
      OverlayRequestError.to_string]

theorem recursive_find_content_not_found_w :
    recursive_find_content baseNet cnfKey true =
      Except.error
        (Json.toString
          (Json.obj [("message", Json.str ("no providers" ++ ": utp: " ++
                        boolDisplay false)),
                     ("trace", optTraceJson (some testTrace))])) ∧
    recursive_find_content baseNet otherErrKey true =
      Except.error "request timed out" :=
  ⟨(recursive_find_content_not_found baseNet cnfKey true rfl).1 "no providers"
      false (some testTrace) rfl,
   (recursive_find_content_not_found baseNet otherErrKey true rfl).2
      "request timed out" rfl⟩

/-- C5: with no beacon client both state-root endpoints answer the literal
initialization error; with a client, a successful header fetch answers the
header's state root as JSON and a failed fetch answers the error's string
form. -/
theorem state_root_endpoints (network : BeaconNetwork) :
    (network.beaconClient = none →
      complete_request network ⟨BeaconEndpoint.optimisticStateRoot⟩ =
        [Except.error "Beacon client not initialized"] ∧
      complete_request network ⟨BeaconEndpoint.finalizedStateRoot⟩ =
        [Except.error "Beacon client not initialized"]) ∧
    (∀ client, network.beaconClient = some client →
      (∀ header, client.getHeader = Except.ok header →
        complete_request network ⟨BeaconEndpoint.optimisticStateRoot⟩ =
          [Except.ok (Json.str (hex_encode header.state_root))]) ∧
      (∀ err, client.getHeader = Except.error err →
        complete_request network ⟨BeaconEndpoint.optimisticStateRoot⟩ =
          [Except.error err.display]) ∧
      (∀ header, client.getFinalizedHeader = Except.ok header →
        complete_request network ⟨BeaconEndpoint.finalizedStateRoot⟩ =
          [Except.ok (Json.str (hex_encode header.state_root))]) ∧
      (∀ err, client.getFinalizedHeader = Except.error err →
        complete_request network ⟨BeaconEndpoint.finalizedStateRoot⟩ =
          [Except.error err.display])) := by
  refine ⟨fun hnone => ?_, fun client hsome => ?_⟩
  · constructor <;>
      simp only [complete_request, complete_request_response, hnone]
  · refine ⟨fun header hh => ?_, fun err he => ?_, fun header hh => ?_,
      fun err he => ?_⟩ <;>
      simp only [complete_request, complete_request_response, hsome, *]

theorem state_root_endpoints_w :
    complete_request baseNet ⟨BeaconEndpoint.optimisticStateRoot⟩ =
      [Except.error "Beacon client not initialized"] ∧
    complete_request clientNet ⟨BeaconEndpoint.optimisticStateRoot⟩ =
      [Except.ok (Json.str (hex_encode [7]))] ∧
    complete_request clientNet ⟨BeaconEndpoint.finalizedStateRoot⟩ =
      [Except.error "rpc down"] :=
  ⟨((state_root_endpoints baseNet).1 rfl).1,
   ((state_root_endpoints clientNet).2 testClient rfl).1 ⟨[7]⟩ rfl,
   ((state_root_endpoints clientNet).2 testClient rfl).2.2.2
      ⟨"rpc down", "RpcDown"⟩ rfl⟩

/-- C6: the FindContent endpoint turns a `ConnectionId` peer response into
the descriptive error, a `Content` response into the hex/utpTransfer
object, an `Enrs` response into the enrs object, and a transport failure
into the timeout error. -/
theorem find_content_cases (network : BeaconNetwork) (enr : Enr)
    (k : BeaconContentKey) :
    (∀ id utp, network.sendFindContent enr k =
        Except.ok (Content.connectionId id, utp) →
        find_content network enr k =
          Except.error ("FindContent request returned a connection id (" ++
            Nat.repr id ++ ") instead of conducting utp transfer.")) ∧
    (∀ bytes utp, network.sendFindContent enr k =
        Except.ok (Content.content bytes, utp) →
        find_content network enr k =
          Except.ok (Json.obj [("content", Json.str (hex_encode bytes)),
                              ("utpTransfer", Json.bool utp)])) ∧
    (∀ enrs utp, network.sendFindContent enr k = Except.ok (Content.enrs enrs, utp) →
        find_content network enr k =
          Except.ok (Json.obj [("enrs", Json.arr (enrs.map enrToJson))])) ∧
    (∀ err, network.sendFindContent enr k = Except.error err →
        find_content network enr k =
          Except.error ("FindContent request timeout: " ++ err.debug)) := by
  refine ⟨fun id utp h => ?_, fun bytes utp h => ?_, fun enrs utp h => ?_,
    fun err h => ?_⟩ <;> simp only [find_content, h]

theorem find_content_cases_w :
    find_content baseNet 1 cnfKey =
      Except.error ("FindContent request returned a connection id (" ++
        Nat.repr 42 ++ ") instead of conducting utp transfer.") ∧
    find_content baseNet 1 testKey =
      Except.ok (Json.obj [("content", Json.str (hex_encode [171])),
                          ("utpTransfer", Json.bool true)]) ∧
    find_content baseNet 1 okTraceKey =
      Except.ok (Json.obj [("enrs", Json.arr ([3, 4].map enrToJson))]) ∧
    find_content baseNet 1 errKey =
      Except.error ("FindContent request timeout: " ++ "Timeout") :=
  ⟨(find_content_cases baseNet 1 cnfKey).1 42 false rfl,
   (find_content_cases baseNet 1 testKey).2.1 [171] true rfl,
   (find_content_cases baseNet 1 okTraceKey).2.2.1 [3, 4] false rfl,
   (find_content_cases baseNet 1 errKey).2.2.2 ⟨"timeout", "Timeout"⟩ rfl⟩

/-- C7: FindNodes maps each ENR returned by `send_find_nodes` through the
routing-table conversion into the `FindNodesInfo` result, and a send
failure becomes the timeout error. -/
theorem find_nodes_cases (network : BeaconNetwork) (enr : Enr)
    (distances : List Nat) :
    (∀ nodes, network.sendFindNodes enr distances = Except.ok nodes →
        find_nodes network enr distances =
          Except.ok (Json.arr ((nodes.enrs.map network.sszEnrInto).map enrToJson))) ∧
    (∀ err, network.sendFindNodes enr distances = Except.error err →
        find_nodes network enr distances =
          Except.error ("FindNodes request timeout: " ++ err.debug)) := by
  refine ⟨fun nodes h => ?_, fun err h => ?_⟩ <;> simp only [find_nodes, h]

theorem find_nodes_cases_w :
    find_nodes baseNet 1 [256] =
      Except.ok (Json.arr (([10, 11].map baseNet.sszEnrInto).map enrToJson)) ∧
    find_nodes baseNet 2 [256] =
      Except.error ("FindNodes request timeout: " ++ "Timeout") :=
  ⟨(find_nodes_cases baseNet 1 [256]).1 ⟨[10, 11]⟩ rfl,
   (find_nodes_cases baseNet 2 [256]).2 ⟨"timeout", "Timeout"⟩ rfl⟩

/-- C8: LocalContent answers a present key with the hex string of its
bytes, an absent key with the literal not-found error, and a store error
with the formatted database error. -/
theorem local_content_cases (network : BeaconNetwork) (k : BeaconContentKey) :
    (∀ bytes, network.storeGet k = Except.ok (some bytes) →
        local_content network k = Except.ok (Json.str (hex_encode bytes))) ∧
    (network.storeGet k = Except.ok none →
        local_content network k = Except.error "Content not found in local storage") ∧
    (∀ err, network.storeGet k = Except.error err →
        local_content network k =
          Except.error
            ("Database error while looking for content key in local storage: " ++
              k.dbgRepr ++ ", with error: " ++ err.display)) := by
  refine ⟨fun bytes h => ?_, fun h => ?_, fun err h => ?_⟩ <;>
    simp only [local_content, h]

theorem local_content_cases_w :
    local_content baseNet testKey = Except.ok (Json.str (hex_encode [222, 173])) ∧
    local_content baseNet cnfKey =
      Except.error "Content not found in local storage" ∧
    local_content baseNet errKey =
      Except.error
        ("Database error while looking for content key in local storage: " ++
          errKey.dbgRepr ++ ", with error: " ++ "db corrupt") :=
  ⟨(local_content_cases baseNet testKey).1 [222, 173] rfl,
   (local_content_cases baseNet cnfKey).2.1 rfl,
   (local_content_cases baseNet errKey).2.2 ⟨"db corrupt", "DbCorrupt"⟩ rfl⟩

/-- C9: for every endpoint tag, `complete_request` sends exactly one
message on the reply channel, and that message is `Ok` of a JSON value or
`Err` of a string. -/
theorem complete_request_exactly_one (network : BeaconNetwork)
    (request : BeaconJsonRpcRequest) :
    (complete_request network request).length = 1 ∧
    ∀ m ∈ complete_request network request,
      (∃ j, m = Except.ok j) ∨ ∃ s, m = Except.error s := by
  refine ⟨rfl, fun m hm => ?_⟩
  have hm2 : m = complete_request_response network request.endpoint := by
    simpa [complete_request] using hm
  cases h : complete_request_response network request.endpoint with
  | ok j => exact Or.inl ⟨j, hm2.trans h⟩
  | error s => exact Or.inr ⟨s, hm2.trans h⟩

/-- C10: the gossip handler never errs — untraced gossip returns the peer
count from `propagate_gossip` and traced gossip returns the JSON of the
trace record from `propagate_gossip_trace`. -/
theorem gossip_never_errs (network : BeaconNetwork) (k : BeaconContentKey)
    (v : BeaconContentValue) :
    gossip network k v false =
      Except.ok (Json.num (network.propagateGossip [(k, v.encode)])) ∧
    gossip network k v true = Except.ok (network.propagateGossipTrace k v.encode) :=
  ⟨rfl, rfl⟩

end TrinBeacon
